import Mathlib

/-!
Verification development for the TrendLoop-USA scheduling/safety core.

Shallow embedding of:
  * src/safety.py        (UsageTracker, safe_delete)
  * src/batch_publisher.py (queue entries, batch_generate, publish_todays_posts)
  * src/master_agent.py  (seconds_since, the master scheduler tick)

Machine integers in the source are Python arbitrary-precision ints, so Nat/Int
model them exactly.  Filesystem state is modelled explicitly (lists of paths,
an existence predicate); fallible library calls (json.load, datetime parsing,
the Gemini client) are modelled by Option / an explicit result type.
-/

/-- Result of running a Python function that can either return a value or
raise an exception with a message. -/
inductive PyResult (α : Type) where
  | returns (a : α)
  | raises (msg : String)
deriving Repr, DecidableEq

/-! ## safety.py : UsageTracker -/

/-- State of `safety.UsageTracker`: the fixed per-service call counters from
`self.api_calls`, the error counters from `self.errors`, and
`self.consecutive_errors`.  `start_time` is wall-clock only (used by the
report printer) and carries no logic, so it is omitted. -/
structure UsageTracker where
  gemini : Nat
  twitter_read : Nat
  twitter_write : Nat
  google_index : Nat
  pinterest : Nat
  indexnow : Nat
  err_gemini : Nat
  err_twitter : Nat
  err_other : Nat
  consecutive_errors : Nat
deriving Repr, DecidableEq

/-- Fresh tracker as built by `UsageTracker.__init__`: every counter zero. -/
def UsageTracker.init : UsageTracker :=
  { gemini := 0, twitter_read := 0, twitter_write := 0, google_index := 0,
    pinterest := 0, indexnow := 0,
    err_gemini := 0, err_twitter := 0, err_other := 0,
    consecutive_errors := 0 }

/-- Sum of the `api_calls` dictionary values (`sum(self.api_calls.values())`). -/
def UsageTracker.total_calls (t : UsageTracker) : Nat :=
  t.gemini + t.twitter_read + t.twitter_write + t.google_index + t.pinterest + t.indexnow

/-- Embedding of `UsageTracker.log_api_call`: increments the counter when
`service` is one of the `api_calls` keys, and unconditionally resets
`consecutive_errors` to 0 (the reset is outside the membership test in the
source). -/
def UsageTracker.log_api_call (t : UsageTracker) (service : String) : UsageTracker :=
  let t1 :=
    if service = "gemini" then { t with gemini := t.gemini + 1 }
    else if service = "twitter_read" then { t with twitter_read := t.twitter_read + 1 }
    else if service = "twitter_write" then { t with twitter_write := t.twitter_write + 1 }
    else if service = "google_index" then { t with google_index := t.google_index + 1 }
    else if service = "pinterest" then { t with pinterest := t.pinterest + 1 }
    else if service = "indexnow" then { t with indexnow := t.indexnow + 1 }
    else t
  { t1 with consecutive_errors := 0 }

/-- Embedding of `UsageTracker.log_error`: increments the error counter for a
recognized category and always increments `consecutive_errors`. -/
def UsageTracker.log_error (t : UsageTracker) (service : String) : UsageTracker :=
  let t1 :=
    if service = "gemini" then { t with err_gemini := t.err_gemini + 1 }
    else if service = "twitter" then { t with err_twitter := t.err_twitter + 1 }
    else if service = "other" then { t with err_other := t.err_other + 1 }
    else t
  { t1 with consecutive_errors := t1.consecutive_errors + 1 }

/-- Embedding of `UsageTracker.is_abnormal`: true when
`consecutive_errors >= max_consecutive`, else true when `total_calls > 50`,
else false. -/
def UsageTracker.is_abnormal (t : UsageTracker) (max_consecutive : Nat) : Bool :=
  if t.consecutive_errors ≥ max_consecutive then true
  else if t.total_calls > 50 then true
  else false

/-- C3: `is_abnormal(max_consecutive)` holds exactly when the consecutive-error
count is at least `max_consecutive` or the total number of logged calls is
strictly greater than 50. -/
theorem C3_is_abnormal_iff (t : UsageTracker) (max_consecutive : Nat) :
    t.is_abnormal max_consecutive = true ↔
      (max_consecutive ≤ t.consecutive_errors ∨ 50 < t.total_calls) := by
  unfold UsageTracker.is_abnormal
  split_ifs with h1 h2 <;> simp <;> omega

/-- C5 counterexample: calling `log_api_call` with the unrecognized service
string "unknown" is not a no-op when the consecutive-error count is nonzero:
it resets `consecutive_errors` to 0 (the reset sits after, and outside, the
`if service in self.api_calls` test). -/
theorem C5_counterexample :
    ("unknown" ≠ "gemini" ∧ "unknown" ≠ "twitter_read" ∧ "unknown" ≠ "twitter_write" ∧
      "unknown" ≠ "google_index" ∧ "unknown" ≠ "pinterest" ∧ "unknown" ≠ "indexnow") ∧
    UsageTracker.log_api_call
        { UsageTracker.init with consecutive_errors := 1 } "unknown" ≠
      { UsageTracker.init with consecutive_errors := 1 } := by
  decide

/-- C5 amended: for a service string that is not one of the recognized
call-counter keys, `log_api_call` leaves every call counter and every error
counter unchanged, but always resets the consecutive-error count to 0. -/
theorem C5_log_api_call_unknown (t : UsageTracker) (service : String)
    (hg : service ≠ "gemini") (htr : service ≠ "twitter_read")
    (htw : service ≠ "twitter_write") (hgi : service ≠ "google_index")
    (hp : service ≠ "pinterest") (hi : service ≠ "indexnow") :
    t.log_api_call service = { t with consecutive_errors := 0 } := by
  unfold UsageTracker.log_api_call
  simp [hg, htr, htw, hgi, hp, hi]

/-- Witness for C5 amended at a concrete tracker and service string. -/
theorem C5_log_api_call_unknown_witness :
    UsageTracker.log_api_call
        { UsageTracker.init with consecutive_errors := 2 } "unknown" =
      { { UsageTracker.init with consecutive_errors := 2 } with consecutive_errors := 0 } :=
  C5_log_api_call_unknown { UsageTracker.init with consecutive_errors := 2 } "unknown"
    (by decide) (by decide) (by decide) (by decide) (by decide) (by decide)

/-! ## safety.py : safe_delete

Paths are modelled as lists of characters; the filesystem is the list of
existing paths.  `os.path.basename` keeps everything after the last slash. -/

/-- Embedding of `os.path.basename` on character lists: the suffix after the
last slash (empty when the path ends in a slash). -/
def basename (p : List Char) : List Char :=
  p.foldl (fun acc c => if c = '/' then [] else acc ++ [c]) []

/-- Observable effect of one `safe_delete` call: the filesystem afterwards,
the returned path string, the directories created, and the moves performed. -/
structure SafeDeleteResult where
  fs : List (List Char)
  ret : List Char
  made_dirs : List (List Char)
  moves : List (List Char × List Char)
deriving Repr, DecidableEq

/-- Embedding of `safety.safe_delete`.  `project_root` stands for
`PROJECT_ROOT`, `fs` for the set of existing paths, `timestamp` for the
strftime("%Y%m%d_%H%M%S") string.  When the path does not exist it returns
the empty string and touches nothing; otherwise it creates `_deleted_items`,
moves the file to `DELETED_DIR/timestamp_basename` and returns that
destination. -/
def safe_delete (project_root : List Char) (fs : List (List Char))
    (timestamp : List Char) (file_path : List Char) : SafeDeleteResult :=
  if file_path ∈ fs then
    let deleted_dir := project_root ++ '/' :: "_deleted_items".data
    let base_name := basename file_path
    let dest := deleted_dir ++ '/' :: (timestamp ++ '_' :: base_name)
    { fs := dest :: fs.filter (fun q => q ≠ file_path),
      ret := dest,
      made_dirs := [deleted_dir],
      moves := [(file_path, dest)] }
  else
    { fs := fs, ret := [], made_dirs := [], moves := [] }

/-- Folding the basename step over a slash-free list appends the list to the
accumulator. -/
theorem basename_foldl_no_slash (b : List Char) (hb : '/' ∉ b) :
    ∀ acc : List Char,
      b.foldl (fun acc c => if c = '/' then [] else acc ++ [c]) acc = acc ++ b := by
  induction b with
  | nil => intro acc; simp
  | cons c cs ih =>
    intro acc
    have hc : c ≠ '/' := fun h => hb (by simp [h])
    have hcs : '/' ∉ cs := fun h => hb (List.mem_cons_of_mem _ h)
    simp only [List.foldl_cons, if_neg hc]
    rw [ih hcs]
    simp

/-- A basename never contains a slash. -/
theorem slash_not_mem_basename_foldl (p : List Char) :
    ∀ acc : List Char, '/' ∉ acc →
      '/' ∉ p.foldl (fun acc c => if c = '/' then [] else acc ++ [c]) acc := by
  induction p with
  | nil => intro acc h; simpa using h
  | cons c cs ih =>
    intro acc h
    simp only [List.foldl_cons]
    by_cases hc : c = '/'
    · rw [if_pos hc]
      exact ih [] (by simp)
    · rw [if_neg hc]
      refine ih _ ?_
      intro hmem
      rcases List.mem_append.mp hmem with h1 | h1
      · exact h h1
      · simp at h1
        exact hc h1.symm

/-- A basename never contains a slash. -/
theorem slash_not_mem_basename (p : List Char) : '/' ∉ basename p :=
  slash_not_mem_basename_foldl p [] (by simp)

/-- Basename looks only at the part after the last slash. -/
theorem basename_append_slash (a b : List Char) :
    basename (a ++ '/' :: b) = basename b := by
  unfold basename
  rw [List.foldl_append]
  simp

/-- Basename of a slash-free list is the list itself. -/
theorem basename_no_slash (b : List Char) (hb : '/' ∉ b) : basename b = b := by
  unfold basename
  rw [basename_foldl_no_slash b hb []]
  simp

/-- C10: when the path does not exist, `safe_delete` returns the empty string
and performs no move and no directory creation, leaving the filesystem
unchanged; when the path exists (and the timestamp, a strftime output, has no
slash), it returns a destination inside `_deleted_items` whose basename ends
with the basename of the original path, and the original path is gone from
the filesystem. -/
theorem C10_safe_delete (project_root fs timestamp file_path) :
    (file_path ∉ fs →
      safe_delete project_root fs timestamp file_path =
        { fs := fs, ret := [], made_dirs := [], moves := [] }) ∧
    (file_path ∈ fs → '/' ∉ timestamp →
      (∃ name, (safe_delete project_root fs timestamp file_path).ret =
        (project_root ++ '/' :: "_deleted_items".data) ++ '/' :: name) ∧
      (∃ pre, basename (safe_delete project_root fs timestamp file_path).ret =
        pre ++ basename file_path) ∧
      file_path ∉ (safe_delete project_root fs timestamp file_path).fs) := by
  constructor
  · intro hnot
    unfold safe_delete
    rw [if_neg hnot]
  · intro hmem hts
    have hbase : basename ((project_root ++ '/' :: "_deleted_items".data) ++
        '/' :: (timestamp ++ '_' :: basename file_path)) =
        timestamp ++ '_' :: basename file_path := by
      rw [basename_append_slash]
      refine basename_no_slash _ ?_
      intro h
      rcases List.mem_append.mp h with h1 | h1
      · exact hts h1
      · rcases List.mem_cons.mp h1 with h2 | h2
        · exact absurd h2.symm (by decide)
        · exact slash_not_mem_basename file_path h2
    unfold safe_delete
    rw [if_pos hmem]
    refine ⟨⟨timestamp ++ '_' :: basename file_path, rfl⟩,
      ⟨timestamp ++ ['_'], by simpa using hbase⟩, ?_⟩
    intro hin
    rcases List.mem_cons.mp hin with hdest | hfilt
    · have := congrArg basename hdest
      rw [hbase] at this
      have hlen := congrArg List.length this
      simp at hlen
      omega
    · have := (List.mem_filter.mp hfilt).2
      simp at this

/-- Witness for C10 at concrete paths: a missing path is untouched, and an
existing path is gone from the filesystem after the call. -/
theorem C10_safe_delete_witness :
    (safe_delete "/app".data ["/app/x.html".data] "20260101_000000".data "/app/y.html".data =
      { fs := ["/app/x.html".data], ret := [], made_dirs := [], moves := [] }) ∧
    "/app/x.html".data ∉
      (safe_delete "/app".data ["/app/x.html".data] "20260101_000000".data "/app/x.html".data).fs :=
  ⟨(C10_safe_delete "/app".data ["/app/x.html".data] "20260101_000000".data
      "/app/y.html".data).1 (by decide),
   ((C10_safe_delete "/app".data ["/app/x.html".data] "20260101_000000".data
      "/app/x.html".data).2 (by decide) (by decide)).2.2⟩

/-! ## batch_publisher.py : queue data model and publish_todays_posts -/

/-- One element of the queue index, as written by `batch_generate`
(`queue_entry = { slug, title, keyword, category, pub_date, file, chars,
published }`). -/
structure QueueEntry where
  slug : String
  title : String
  keyword : String
  category : String
  pub_date : String
  file : String
  chars : Nat
  published : Bool
deriving Repr, DecidableEq

/-- Contents of an existing queue index file as seen through `json.load`:
either it fails to parse (raising), or it parses to a list of entries. -/
inductive QueueFile where
  | malformed
  | parsed (queue : List QueueEntry)
deriving Repr, DecidableEq

/-- Observable effect of one `publish_todays_posts` call: the returned value
or raised exception, the queue index written back (none when the function
returns before the rewrite), and the file copies performed (source path,
destination path). -/
structure PublishResult where
  ret : PyResult Nat
  queue_written : Option (List QueueEntry)
  copies : List (String × String)
deriving Repr, DecidableEq

/-- Filter used to build `todays_posts`:
`p["pub_date"] == today and not p["published"]`. -/
def is_due_today (today : String) (p : QueueEntry) : Bool :=
  p.pub_date == today && !p.published

/-- A due entry whose HTML file exists on disk; exactly these entries are
copied, flipped to published and counted by the publishing loop (the loop
skips entries whose `post["file"]` is missing with a WARN log). -/
def publish_hit (fs_exists : String → Bool) (today : String) (p : QueueEntry) : Bool :=
  is_due_today today p && fs_exists p.file

/-- Embedding of `batch_publisher.publish_todays_posts`.  `queue_index` is the
state of the queue index file (`none` = missing), `fs_exists` the existence
predicate for the HTML source files, `today` the strftime("%Y-%m-%d") of now.
The best-effort `notify_url_updated` call and the site rebuild are
try/except-swallowed in the source and mutate no modelled state, so they are
not recorded.  The loop mutates the entry dicts aliased by the filtered list,
which is the same as mapping the hit test over the whole queue since
`json.load` never aliases two list positions to one dict. -/
def publish_todays_posts (docs_dir : String) (queue_index : Option QueueFile)
    (fs_exists : String → Bool) (today : String) : PublishResult :=
  match queue_index with
  | none => { ret := .returns 0, queue_written := none, copies := [] }
  | some .malformed =>
      { ret := .raises "json.load: invalid JSON", queue_written := none, copies := [] }
  | some (.parsed queue) =>
    let todays_posts := queue.filter (is_due_today today)
    if todays_posts.isEmpty then
      { ret := .returns 0, queue_written := none, copies := [] }
    else
      { ret := .returns (queue.filter (publish_hit fs_exists today)).length,
        queue_written := some (queue.map (fun p =>
          if publish_hit fs_exists today p then { p with published := true } else p)),
        copies := (queue.filter (publish_hit fs_exists today)).map
          (fun p => (p.file, docs_dir ++ "/" ++ p.slug ++ ".html")) }

/-- Unfolding equation for `publish_todays_posts` on a parsed queue. -/
theorem publish_parsed_def (docs_dir : String) (queue : List QueueEntry)
    (fs_exists : String → Bool) (today : String) :
    publish_todays_posts docs_dir (some (.parsed queue)) fs_exists today =
      if (queue.filter (is_due_today today)).isEmpty then
        { ret := .returns 0, queue_written := none, copies := [] }
      else
        { ret := .returns (queue.filter (publish_hit fs_exists today)).length,
          queue_written := some (queue.map (fun p =>
            if publish_hit fs_exists today p then { p with published := true } else p)),
          copies := (queue.filter (publish_hit fs_exists today)).map
            (fun p => (p.file, docs_dir ++ "/" ++ p.slug ++ ".html")) } := rfl

/-- C2: whatever queue index the publisher writes back preserves every already
set published flag (false to true at most once, never reversed), and when
every entry scheduled for today is already published the run returns 0,
rewrites nothing and copies nothing. -/
theorem C2_publish_monotone_idempotent (docs_dir : String) (queue : List QueueEntry)
    (fs_exists : String → Bool) (today : String) :
    (∀ q2, (publish_todays_posts docs_dir (some (.parsed queue)) fs_exists today).queue_written =
        some q2 →
      q2.length = queue.length ∧
      ∀ i (h : i < queue.length) (h2 : i < q2.length),
        queue[i].published = true → q2[i].published = true) ∧
    ((∀ p ∈ queue, p.pub_date = today → p.published = true) →
      publish_todays_posts docs_dir (some (.parsed queue)) fs_exists today =
        { ret := .returns 0, queue_written := none, copies := [] }) := by
  constructor
  · intro q2 hq2
    rw [publish_parsed_def] at hq2
    by_cases hemp : (queue.filter (is_due_today today)).isEmpty
    · rw [if_pos hemp] at hq2
      exact Option.noConfusion hq2
    · rw [if_neg hemp] at hq2
      dsimp only at hq2
      have hq2e := Option.some.inj hq2
      subst hq2e
      refine ⟨by simp, ?_⟩
      intro i h h2 hpub
      simp only [List.getElem_map]
      split
      · rfl
      · exact hpub
  · intro hall
    have hnil : queue.filter (is_due_today today) = [] := by
      rw [List.filter_eq_nil_iff]
      intro p hp
      unfold is_due_today
      by_cases hd : p.pub_date = today
      · simp [hall p hp hd]
      · simp [hd]
    rw [publish_parsed_def, hnil]
    rfl

/-- Witness for C2 at a concrete queue whose single entry for today is
already published: the run is a no-op returning 0. -/
theorem C2_publish_monotone_idempotent_witness :
    publish_todays_posts "docs"
        (some (.parsed [⟨"s", "t", "k", "c", "2026-10-12", "f", 1, true⟩]))
        (fun _ => true) "2026-10-12" =
      { ret := .returns 0, queue_written := none, copies := [] } :=
  (C2_publish_monotone_idempotent "docs"
      [⟨"s", "t", "k", "c", "2026-10-12", "f", 1, true⟩]
      (fun _ => true) "2026-10-12").2 (by decide)

/-- C4 counterexample: when the queue index file exists but does not parse as
JSON, `json.load` raises out of `publish_todays_posts` (there is no
try/except around it), so the publisher does not return a count. -/
theorem C4_counterexample :
    (publish_todays_posts "docs" (some .malformed) (fun _ => false) "2026-10-12").ret =
      PyResult.raises "json.load: invalid JSON" := rfl

/-- C4 amended: when the queue index file is missing or parses as a queue
array, `publish_todays_posts` returns a count and never raises, and on a
missing file it returns 0. -/
theorem C4_publish_no_raise (docs_dir : String) (queue_index : Option QueueFile)
    (fs_exists : String → Bool) (today : String)
    (hwf : queue_index ≠ some QueueFile.malformed) :
    (∃ n, (publish_todays_posts docs_dir queue_index fs_exists today).ret =
      PyResult.returns n) ∧
    (queue_index = none →
      (publish_todays_posts docs_dir queue_index fs_exists today).ret =
        PyResult.returns 0) := by
  match queue_index with
  | none => exact ⟨⟨0, rfl⟩, fun _ => rfl⟩
  | some .malformed => exact absurd rfl hwf
  | some (.parsed queue) =>
    refine ⟨?_, fun h => Option.noConfusion h⟩
    rw [publish_parsed_def]
    by_cases hemp : (queue.filter (is_due_today today)).isEmpty
    · rw [if_pos hemp]
      exact ⟨0, rfl⟩
    · rw [if_neg hemp]
      exact ⟨(queue.filter (publish_hit fs_exists today)).length, rfl⟩

/-- Witness for C4 amended at a missing queue index file. -/
theorem C4_publish_no_raise_witness :
    (publish_todays_posts "docs" none (fun _ => false) "2026-10-12").ret =
      PyResult.returns 0 :=
  (C4_publish_no_raise "docs" none (fun _ => false) "2026-10-12" (by decide)).2 rfl

/-- C9: a due entry whose HTML source file is missing is skipped without
raising: it is not a publish hit (so it is not counted in the returned
count), every copy actually performed has an existing source, and the queue
index is rewritten with that entry still unpublished, leaving it due for
future runs. -/
theorem C9_publish_skips_missing_file (docs_dir : String) (queue : List QueueEntry)
    (fs_exists : String → Bool) (today : String) (i : Nat) (h : i < queue.length)
    (hdate : queue[i].pub_date = today) (hpub : queue[i].published = false)
    (hmiss : fs_exists queue[i].file = false) :
    (publish_todays_posts docs_dir (some (.parsed queue)) fs_exists today).ret =
      PyResult.returns (queue.filter (publish_hit fs_exists today)).length ∧
    publish_hit fs_exists today queue[i] = false ∧
    (∀ c ∈ (publish_todays_posts docs_dir (some (.parsed queue)) fs_exists today).copies,
      fs_exists c.1 = true) ∧
    (∃ q2, (publish_todays_posts docs_dir (some (.parsed queue)) fs_exists today).queue_written =
        some q2 ∧ ∃ h2 : i < q2.length, q2[i].published = false) := by
  have hdue : is_due_today today queue[i] = true := by
    unfold is_due_today
    simp [hdate, hpub]
  have hhit : publish_hit fs_exists today queue[i] = false := by
    unfold publish_hit
    simp [hmiss]
  have hmem : queue[i] ∈ queue.filter (is_due_today today) :=
    List.mem_filter.mpr ⟨List.getElem_mem h, hdue⟩
  have hemp : ¬ (queue.filter (is_due_today today)).isEmpty := by
    intro hx
    rw [List.isEmpty_iff] at hx
    rw [hx] at hmem
    exact List.not_mem_nil _ hmem
  rw [publish_parsed_def, if_neg hemp]
  refine ⟨rfl, hhit, ?_, ?_⟩
  · intro c hc
    dsimp only at hc
    rcases List.mem_map.mp hc with ⟨p, hpmem, hpc⟩
    have := (List.mem_filter.mp hpmem).2
    unfold publish_hit at this
    have hex : fs_exists p.file = true := by
      rcases Bool.and_eq_true_iff.mp this with ⟨_, h2⟩
      exact h2
    rw [← hpc]
    exact hex
  · refine ⟨_, rfl, ?_⟩
    refine ⟨by simpa using h, ?_⟩
    simp only [List.getElem_map, hhit]
    simpa using hpub

/-- Witness for C9: one entry due today whose file is missing; the publisher
returns 0 and writes the queue back with the entry still unpublished. -/
theorem C9_publish_skips_missing_file_witness :
    (publish_todays_posts "docs"
        (some (.parsed [⟨"s", "t", "k", "c", "2026-10-12", "gone.html", 1, false⟩]))
        (fun _ => false) "2026-10-12").ret = PyResult.returns 0 :=
  (C9_publish_skips_missing_file "docs"
      [⟨"s", "t", "k", "c", "2026-10-12", "gone.html", 1, false⟩]
      (fun _ => false) "2026-10-12" 0 (by decide) rfl rfl rfl).1

/-! ## batch_publisher.py : batch_generate -/

/-- Module constant `POSTS_PER_DAY = 10`. -/
def POSTS_PER_DAY : Nat := 10

/-- Module constant `DAYS_AHEAD = 7`. -/
def DAYS_AHEAD : Nat := 7

/-- Module constant `TOTAL_POSTS = POSTS_PER_DAY * DAYS_AHEAD`. -/
def TOTAL_POSTS : Nat := POSTS_PER_DAY * DAYS_AHEAD

/-- One topic object from the parsed Gemini topics response; every field is
read with `topic.get(key, default)`, so each is optional. -/
structure Topic where
  day : Option Int
  title : Option String
  keyword : Option String
  category : Option String
deriving Repr, DecidableEq

/-- Day offset of the entry built from the topic at enumerate index `i`:
`topic.get("day", (i // POSTS_PER_DAY) + 1) - 1`.  A topic-supplied day wins
over the index-derived default. -/
def day_offset (topic : Topic) (i : Nat) : Int :=
  topic.day.getD (((i / POSTS_PER_DAY : Nat) : Int) + 1) - 1

/-- Embedding of `re.sub(r"[^a-z0-9]+", "-", s)`: each maximal run of
characters outside lowercase a-z and 0-9 becomes a single dash.  The Bool in
the accumulator records whether the previous character was part of such a
run. -/
def sub_non_alnum (cs : List Char) : List Char :=
  (cs.foldl (fun (acc : List Char × Bool) c =>
    if ('a' ≤ c ∧ c ≤ 'z') ∨ ('0' ≤ c ∧ c ≤ '9') then (acc.1 ++ [c], false)
    else if acc.2 then acc
    else (acc.1 ++ ['-'], true)) ([], false)).1

/-- Embedding of `str.strip("-")`: drop dashes from both ends. -/
def strip_dash (cs : List Char) : List Char :=
  ((cs.dropWhile (fun c => c = '-')).reverse.dropWhile (fun c => c = '-')).reverse

/-- Embedding of `slug_base` in `batch_generate`:
`re.sub(r"[^a-z0-9]+", "-", title.lower()).strip("-")[:60]`. -/
def slug_base (title : String) : String :=
  String.mk ((strip_dash (sub_non_alnum (title.data.map Char.toLower))).take 60)

/-- One iteration of the generation loop in `batch_generate` over the pair
`(i, topic)` from `enumerate(topics)`.  `fmt_date` stands for
`(today + timedelta(days=d)).strftime("%Y-%m-%d")`, `wrap_html` for
`wrap_full_html` (pure string templating, out of scope per the spec), and
`gen_body i` for the outcome of `generate_single_post(topic, i)` (`none` when
the API call failed).  A missing or too-short (< 500 chars) body skips the
topic; otherwise one entry with `published = False` is appended and the
generated count is incremented. -/
def batch_step (queue_dir : String) (fmt_date : Int → String)
    (wrap_html : String → String → String → String → String → String)
    (gen_body : Nat → Option String)
    (acc : List QueueEntry × Nat) (p : Nat × Topic) : List QueueEntry × Nat :=
  let i := p.1
  let topic := p.2
  let pub_date := fmt_date (day_offset topic i)
  let title := topic.title.getD ("Fashion Guide #" ++ toString (i + 1))
  let keyword := topic.keyword.getD "fashion trends 2026"
  let category := topic.category.getD "casual"
  let slug := pub_date ++ "-" ++ slug_base title
  match gen_body (i + 1) with
  | none => acc
  | some body =>
    if body.length < 500 then acc
    else
      let full_html := wrap_html title keyword slug body pub_date
      (acc.1 ++
        [{ slug := slug, title := title, keyword := keyword, category := category,
           pub_date := pub_date, file := queue_dir ++ "/" ++ slug ++ ".html",
           chars := full_html.length, published := false }],
       acc.2 + 1)

/-- Embedding of `batch_publisher.batch_generate`.  When topic generation
returned nothing the function logs an error and returns 0 without writing the
queue index; otherwise the queue index file is overwritten with exactly the
entries accumulated in this run (the local `queue_index` starts as `[]` and
the pre-existing file contents are never read).  Returns the written index
(`none` = not written) and the `generated` count. -/
def batch_generate (count : Nat) (topics : List Topic) (queue_dir : String)
    (fmt_date : Int → String)
    (wrap_html : String → String → String → String → String → String)
    (gen_body : Nat → Option String) : Option (List QueueEntry) × Nat :=
  if topics.isEmpty then (none, 0)
  else
    let r := (topics.take count).enum.foldl
      (batch_step queue_dir fmt_date wrap_html gen_body) ([], 0)
    (some r.1, r.2)

/-- Entries already accumulated survive one generation step. -/
theorem batch_step_mono (queue_dir : String) (fmt_date : Int → String)
    (wrap_html : String → String → String → String → String → String)
    (gen_body : Nat → Option String) (acc : List QueueEntry × Nat)
    (p : Nat × Topic) (e : QueueEntry) (he : e ∈ acc.1) :
    e ∈ (batch_step queue_dir fmt_date wrap_html gen_body acc p).1 := by
  unfold batch_step
  dsimp only
  cases hg : gen_body (p.1 + 1) with
  | none =>
    simp only [hg]
    exact he
  | some body =>
    simp only [hg]
    by_cases hlen : body.length < 500
    · rw [if_pos hlen]
      exact he
    · rw [if_neg hlen]
      exact List.mem_append_left _ he

/-- Entries already accumulated survive the whole generation loop. -/
theorem batch_foldl_mono (queue_dir : String) (fmt_date : Int → String)
    (wrap_html : String → String → String → String → String → String)
    (gen_body : Nat → Option String) (l : List (Nat × Topic)) :
    ∀ (acc : List QueueEntry × Nat) (e : QueueEntry), e ∈ acc.1 →
      e ∈ (l.foldl (batch_step queue_dir fmt_date wrap_html gen_body) acc).1 := by
  induction l with
  | nil => intro acc e he; exact he
  | cons p l ih =>
    intro acc e he
    exact ih _ e (batch_step_mono queue_dir fmt_date wrap_html gen_body acc p e he)

/-- Every entry produced by the generation loop carries `published = false`. -/
theorem batch_foldl_published (queue_dir : String) (fmt_date : Int → String)
    (wrap_html : String → String → String → String → String → String)
    (gen_body : Nat → Option String) (l : List (Nat × Topic)) :
    ∀ (acc : List QueueEntry × Nat), (∀ e ∈ acc.1, e.published = false) →
      ∀ e ∈ (l.foldl (batch_step queue_dir fmt_date wrap_html gen_body) acc).1,
        e.published = false := by
  induction l with
  | nil => intro acc hacc e he; exact hacc e he
  | cons p l ih =>
    intro acc hacc e he
    refine ih _ ?_ e he
    intro e2 he2
    unfold batch_step at he2
    dsimp only at he2
    cases hg : gen_body (p.1 + 1) with
    | none =>
      simp only [hg] at he2
      exact hacc e2 he2
    | some body =>
      simp only [hg] at he2
      by_cases hlen : body.length < 500
      · rw [if_pos hlen] at he2
        exact hacc e2 he2
      · rw [if_neg hlen] at he2
        rcases List.mem_append.mp he2 with h1 | h1
        · exact hacc e2 h1
        · rcases List.mem_singleton.mp h1 with rfl
          rfl

/-- A topic at enumerate index `i` whose body generation succeeds with at
least 500 characters contributes an entry whose scheduled date is
`fmt_date` of its day offset. -/
theorem batch_foldl_mem_entry (queue_dir : String) (fmt_date : Int → String)
    (wrap_html : String → String → String → String → String → String)
    (gen_body : Nat → Option String) (l : List (Nat × Topic)) :
    ∀ (acc : List QueueEntry × Nat) (i : Nat) (t : Topic), (i, t) ∈ l →
      ∀ body, gen_body (i + 1) = some body → ¬ body.length < 500 →
      ∃ e ∈ (l.foldl (batch_step queue_dir fmt_date wrap_html gen_body) acc).1,
        e.pub_date = fmt_date (day_offset t i) := by
  induction l with
  | nil =>
    intro acc i t hmem
    exact absurd hmem (List.not_mem_nil _)
  | cons p l ih =>
    intro acc i t hmem body hgen hlen
    rcases List.mem_cons.mp hmem with heq | htail
    · subst heq
      have hstep : ∃ e ∈ (batch_step queue_dir fmt_date wrap_html gen_body acc (i, t)).1,
          e.pub_date = fmt_date (day_offset t i) := by
        unfold batch_step
        dsimp only
        simp only [hgen]
        rw [if_neg hlen]
        exact ⟨_, List.mem_append_right _ (List.mem_singleton_self _), rfl⟩
      obtain ⟨e, he, hpd⟩ := hstep
      exact ⟨e, batch_foldl_mono queue_dir fmt_date wrap_html gen_body l _ e he, hpd⟩
    · exact ih _ i t htail body hgen hlen

set_option maxRecDepth 8000 in
/-- C6 counterexample: after a batch run over one fresh topic, the queue
index written to disk holds exactly the one entry generated by that batch; a
pre-existing (already published) entry of the former queue index is not in
it, because `batch_generate` starts from `queue_index = []` and overwrites
the file without reading it. -/
theorem C6_counterexample :
    (((batch_generate 70 [⟨some 1, some "hello", some "k", some "c"⟩] "q"
        (fun _ => "2026-01-01") (fun _ _ _ b _ => b)
        (fun _ => some (String.mk (List.replicate 500 'a')))).1.getD []).length = 1) ∧
    (⟨"old-slug", "Old", "k", "c", "2026-01-01", "f", 1, true⟩ : QueueEntry) ∉
      ((batch_generate 70 [⟨some 1, some "hello", some "k", some "c"⟩] "q"
        (fun _ => "2026-01-01") (fun _ _ _ b _ => b)
        (fun _ => some (String.mk (List.replicate 500 'a')))).1.getD []) ∧
    (batch_generate 70 [⟨some 1, some "hello", some "k", some "c"⟩] "q"
        (fun _ => "2026-01-01") (fun _ _ _ b _ => b)
        (fun _ => some (String.mk (List.replicate 500 'a')))).1 ≠ none := by
  decide

/-- C6 amended: a batch over a nonempty topics list overwrites the queue
index with exactly the entries generated in this run, all unpublished;
entries of the previously persisted index are not carried over (the written
list is computed from the batch inputs alone). -/
theorem C6_batch_overwrites (count : Nat) (topics : List Topic) (queue_dir : String)
    (fmt_date : Int → String)
    (wrap_html : String → String → String → String → String → String)
    (gen_body : Nat → Option String) (hne : topics ≠ []) :
    ∃ L, (batch_generate count topics queue_dir fmt_date wrap_html gen_body).1 = some L ∧
      ∀ e ∈ L, e.published = false := by
  have hne2 : topics.isEmpty = false := by
    cases topics with
    | nil => exact absurd rfl hne
    | cons a l => rfl
  unfold batch_generate
  simp only [hne2, Bool.false_eq_true, if_false]
  refine ⟨_, rfl, ?_⟩
  refine batch_foldl_published queue_dir fmt_date wrap_html gen_body _ ([], 0) ?_
  intro e he
  exact absurd he (List.not_mem_nil _)

/-- Witness for C6 amended: with a nonempty topic list the queue index is
written (not left as it was). -/
theorem C6_batch_overwrites_witness :
    (batch_generate 70 [⟨none, none, none, none⟩] "q" (fun _ => "d")
      (fun _ _ _ _ _ => "") (fun _ => none)).1 ≠ none := by
  obtain ⟨L, hL, hAll⟩ := C6_batch_overwrites 70 [⟨none, none, none, none⟩] "q"
    (fun _ => "d") (fun _ _ _ _ _ => "") (fun _ => none) (by decide)
  rw [hL]
  exact fun hx => Option.noConfusion hx

set_option maxRecDepth 8000 in
/-- C7 counterexample: a topic that carries its own `day` field overrides the
index-derived schedule: at index 0 with `day = 3` the offset is 2, not
`0 // POSTS_PER_DAY = 0`, and the generated entry is dated by offset 2. -/
theorem C7_counterexample :
    day_offset ⟨some 3, some "a", some "k", some "c"⟩ 0 ≠ ((0 / POSTS_PER_DAY : Nat) : Int) ∧
    ((batch_generate 70 [⟨some 3, some "a", some "k", some "c"⟩] "q"
        (fun d => if d = 0 then "day0" else "other") (fun _ _ _ b _ => b)
        (fun _ => some (String.mk (List.replicate 500 'a')))).1.getD []).map
        (fun e => e.pub_date) = ["other"] ∧
    "other" ≠ "day0" := by
  decide

/-- C7 amended: the integer-division day assignment is only the default for a
topic without its own `day` field: for such a topic at index `i` the day
offset is `i // POSTS_PER_DAY` and, when its body generation succeeds with at
least 500 characters, the written queue index contains an entry scheduled at
that offset. -/
theorem C7_day_assignment_default (count : Nat) (topics : List Topic)
    (queue_dir : String) (fmt_date : Int → String)
    (wrap_html : String → String → String → String → String → String)
    (gen_body : Nat → Option String) (i : Nat)
    (h : i < (topics.take count).length)
    (hday : ((topics.take count)[i]).day = none)
    (body : String) (hgen : gen_body (i + 1) = some body)
    (hlen : 500 ≤ body.length) :
    day_offset (topics.take count)[i] i = ((i / POSTS_PER_DAY : Nat) : Int) ∧
    ∃ e ∈ ((batch_generate count topics queue_dir fmt_date wrap_html gen_body).1.getD []),
      e.pub_date = fmt_date ((i / POSTS_PER_DAY : Nat) : Int) := by
  have hoff : day_offset (topics.take count)[i] i = ((i / POSTS_PER_DAY : Nat) : Int) := by
    unfold day_offset
    rw [hday]
    simp
  refine ⟨hoff, ?_⟩
  have hne2 : topics.isEmpty = false := by
    cases topics with
    | nil => simp at h
    | cons a l => rfl
  unfold batch_generate
  simp only [hne2, Bool.false_eq_true, if_false]
  have hlen2 : i < (topics.take count).enum.length := by simpa using h
  have hmem : (i, (topics.take count)[i]) ∈ (topics.take count).enum := by
    have hg := List.getElem_enum (topics.take count) i hlen2
    rw [← hg]
    exact List.getElem_mem hlen2
  have hm := batch_foldl_mem_entry queue_dir fmt_date wrap_html gen_body
    (topics.take count).enum ([], 0) i ((topics.take count)[i]) hmem body hgen
    (by omega)
  rw [hoff] at hm
  simpa using hm

set_option maxRecDepth 8000 in
/-- Witness for C7 amended: a topic without a `day` field at index 0 gets the
default offset `0 // POSTS_PER_DAY`. -/
theorem C7_day_assignment_default_witness :
    day_offset (([(⟨none, some "a", some "k", some "c"⟩ : Topic)].take 70).get
      ⟨0, by decide⟩) 0 = ((0 / POSTS_PER_DAY : Nat) : Int) :=
  (C7_day_assignment_default 70 [⟨none, some "a", some "k", some "c"⟩] "q"
    (fun _ => "d") (fun _ _ _ b _ => b)
    (fun _ => some (String.mk (List.replicate 500 'a'))) 0 (by decide) rfl
    (String.mk (List.replicate 500 'a')) rfl (by decide)).1

/-! ## master_agent.py : seconds_since and the scheduler tick -/

/-- Value of `seconds_since`: a finite number of seconds, or the float
infinity returned on a missing, empty or unparsable timestamp. -/
inductive Elapsed where
  | inf
  | fin (s : Int)
deriving Repr, DecidableEq

/-- Embedding of `master_agent.seconds_since`.  `parse_iso` stands for
`datetime.fromisoformat` (`none` = it raises); `now` is the current time in
seconds.  `if not iso_str` catches both a missing key (None) and the empty
string; a parse failure is caught by the bare except and also yields
infinity. -/
def seconds_since (parse_iso : String → Option Int) (now : Int)
    (iso_str : Option String) : Elapsed :=
  match iso_str with
  | none => .inf
  | some s =>
    if s = "" then .inf
    else
      match parse_iso (s.replace "Z" "+00:00") with
      | none => .inf
      | some last => .fin (now - last)

/-- Comparison `elapsed >= INTERVAL` of the main loop; the float infinity is
greater or equal to every interval. -/
def Elapsed.due (e : Elapsed) (interval : Int) : Bool :=
  match e with
  | .inf => true
  | .fin s => decide (interval ≤ s)

/-- Module constant `CONTENT_INTERVAL = 6 * 3600`. -/
def CONTENT_INTERVAL : Int := 6 * 3600

/-- Module constant `SEO_INTERVAL = 1 * 3600`. -/
def SEO_INTERVAL : Int := 1 * 3600

/-- Module constant `SOCIAL_INTERVAL = 12 * 3600`. -/
def SOCIAL_INTERVAL : Int := 12 * 3600

/-- Module constant `HEARTBEAT_INTERVAL = 300`. -/
def HEARTBEAT_INTERVAL : Int := 300

/-- Persisted schedule state (`logs/master_state.json`): the keys the loop
reads and writes.  A missing key is `none` (`state.get` returns None). -/
structure SchedState where
  last_content : Option String
  last_seo : Option String
  last_social : Option String
  last_heartbeat : Option String
  last_content_status : Option String
  last_seo_status : Option String
  last_social_status : Option String
  cycles : Option Nat
deriving Repr, DecidableEq

/-- State produced by `load_state` when the state file is missing or
unreadable: the empty dict, every key absent. -/
def SchedState.init : SchedState :=
  { last_content := none, last_seo := none, last_social := none,
    last_heartbeat := none, last_content_status := none,
    last_seo_status := none, last_social_status := none, cycles := none }

/-- Outcome of invoking each task body once during a tick.  `heartbeat` is
the outcome inside `task_heartbeat`, which the function itself swallows with
its blanket try/except, so the loop never observes it. -/
structure TaskOutcomes where
  content : PyResult Unit
  seo : PyResult Unit
  social : PyResult Unit
  heartbeat : PyResult Unit
deriving Repr, DecidableEq

/-- Content-generation block of the main loop: when due, run the task; on
success advance `last_content` to now and set status "ok"; on an exception
only set the truncated error status. -/
def content_step (parse_iso : String → Option Int) (now : Int) (now_iso : String)
    (oc : PyResult Unit) (s : SchedState) : SchedState :=
  if (seconds_since parse_iso now s.last_content).due CONTENT_INTERVAL then
    match oc with
    | .returns _ =>
        { s with last_content := some now_iso, last_content_status := some "ok" }
    | .raises e =>
        { s with last_content_status := some ("error: " ++ e.take 100) }
  else s

/-- SEO block of the main loop, same success/failure policy. -/
def seo_step (parse_iso : String → Option Int) (now : Int) (now_iso : String)
    (os : PyResult Unit) (s : SchedState) : SchedState :=
  if (seconds_since parse_iso now s.last_seo).due SEO_INTERVAL then
    match os with
    | .returns _ =>
        { s with last_seo := some now_iso, last_seo_status := some "ok" }
    | .raises e =>
        { s with last_seo_status := some ("error: " ++ e.take 100) }
  else s

/-- Social-posting block of the main loop, same success/failure policy. -/
def social_step (parse_iso : String → Option Int) (now : Int) (now_iso : String)
    (osoc : PyResult Unit) (s : SchedState) : SchedState :=
  if (seconds_since parse_iso now s.last_social).due SOCIAL_INTERVAL then
    match osoc with
    | .returns _ =>
        { s with last_social := some now_iso, last_social_status := some "ok" }
    | .raises e =>
        { s with last_social_status := some ("error: " ++ e.take 100) }
  else s

/-- Heartbeat block of the main loop: `task_heartbeat()` swallows every
exception internally, so the timestamp and cycle count are updated
unconditionally whenever the heartbeat is due, whatever the outcome. -/
def heartbeat_step (parse_iso : String → Option Int) (now : Int) (now_iso : String)
    (cycle : Nat) (s : SchedState) : SchedState :=
  if (seconds_since parse_iso now s.last_heartbeat).due HEARTBEAT_INTERVAL then
    { s with last_heartbeat := some now_iso, cycles := some cycle }
  else s

/-- One pass of the try-block in the master loop body: the four task blocks
run in order on the shared state dict (each block reads only its own keys,
which no earlier block writes). -/
def tick (parse_iso : String → Option Int) (now : Int) (now_iso : String)
    (o : TaskOutcomes) (cycle : Nat) (s : SchedState) : SchedState :=
  heartbeat_step parse_iso now now_iso cycle
    (social_step parse_iso now now_iso o.social
      (seo_step parse_iso now now_iso o.seo
        (content_step parse_iso now now_iso o.content s)))

/-- The content block touches no key of the other three tasks. -/
theorem content_step_frame (parse_iso : String → Option Int) (now : Int)
    (now_iso : String) (oc : PyResult Unit) (s : SchedState) :
    (content_step parse_iso now now_iso oc s).last_seo = s.last_seo ∧
    (content_step parse_iso now now_iso oc s).last_seo_status = s.last_seo_status ∧
    (content_step parse_iso now now_iso oc s).last_social = s.last_social ∧
    (content_step parse_iso now now_iso oc s).last_social_status = s.last_social_status ∧
    (content_step parse_iso now now_iso oc s).last_heartbeat = s.last_heartbeat := by
  unfold content_step
  split
  · cases oc <;> exact ⟨rfl, rfl, rfl, rfl, rfl⟩
  · exact ⟨rfl, rfl, rfl, rfl, rfl⟩

/-- The SEO block touches no key of the other three tasks. -/
theorem seo_step_frame (parse_iso : String → Option Int) (now : Int)
    (now_iso : String) (os : PyResult Unit) (s : SchedState) :
    (seo_step parse_iso now now_iso os s).last_content = s.last_content ∧
    (seo_step parse_iso now now_iso os s).last_content_status = s.last_content_status ∧
    (seo_step parse_iso now now_iso os s).last_social = s.last_social ∧
    (seo_step parse_iso now now_iso os s).last_social_status = s.last_social_status ∧
    (seo_step parse_iso now now_iso os s).last_heartbeat = s.last_heartbeat := by
  unfold seo_step
  split
  · cases os <;> exact ⟨rfl, rfl, rfl, rfl, rfl⟩
  · exact ⟨rfl, rfl, rfl, rfl, rfl⟩

/-- The social block touches no key of the other three tasks. -/
theorem social_step_frame (parse_iso : String → Option Int) (now : Int)
    (now_iso : String) (osoc : PyResult Unit) (s : SchedState) :
    (social_step parse_iso now now_iso osoc s).last_content = s.last_content ∧
    (social_step parse_iso now now_iso osoc s).last_content_status = s.last_content_status ∧
    (social_step parse_iso now now_iso osoc s).last_seo = s.last_seo ∧
    (social_step parse_iso now now_iso osoc s).last_seo_status = s.last_seo_status ∧
    (social_step parse_iso now now_iso osoc s).last_heartbeat = s.last_heartbeat := by
  unfold social_step
  split
  · cases osoc <;> exact ⟨rfl, rfl, rfl, rfl, rfl⟩
  · exact ⟨rfl, rfl, rfl, rfl, rfl⟩

/-- The heartbeat block touches no key of the other three tasks. -/
theorem heartbeat_step_frame (parse_iso : String → Option Int) (now : Int)
    (now_iso : String) (cycle : Nat) (s : SchedState) :
    (heartbeat_step parse_iso now now_iso cycle s).last_content = s.last_content ∧
    (heartbeat_step parse_iso now now_iso cycle s).last_content_status = s.last_content_status ∧
    (heartbeat_step parse_iso now now_iso cycle s).last_seo = s.last_seo ∧
    (heartbeat_step parse_iso now now_iso cycle s).last_seo_status = s.last_seo_status ∧
    (heartbeat_step parse_iso now now_iso cycle s).last_social = s.last_social ∧
    (heartbeat_step parse_iso now now_iso cycle s).last_social_status = s.last_social_status := by
  unfold heartbeat_step
  split
  · exact ⟨rfl, rfl, rfl, rfl, rfl, rfl⟩
  · exact ⟨rfl, rfl, rfl, rfl, rfl, rfl⟩

/-- Behaviour of the content block when the task is due. -/
theorem content_step_due (parse_iso : String → Option Int) (now : Int)
    (now_iso : String) (oc : PyResult Unit) (s : SchedState)
    (h : (seconds_since parse_iso now s.last_content).due CONTENT_INTERVAL = true) :
    match oc with
    | .returns _ =>
        (content_step parse_iso now now_iso oc s).last_content = some now_iso ∧
        (content_step parse_iso now now_iso oc s).last_content_status = some "ok"
    | .raises e =>
        (content_step parse_iso now now_iso oc s).last_content = s.last_content ∧
        (content_step parse_iso now now_iso oc s).last_content_status =
          some ("error: " ++ e.take 100) := by
  unfold content_step
  rw [if_pos h]
  cases oc with
  | returns a => exact ⟨rfl, rfl⟩
  | raises e => exact ⟨rfl, rfl⟩

/-- Behaviour of the SEO block when the task is due. -/
theorem seo_step_due (parse_iso : String → Option Int) (now : Int)
    (now_iso : String) (os : PyResult Unit) (s : SchedState)
    (h : (seconds_since parse_iso now s.last_seo).due SEO_INTERVAL = true) :
    match os with
    | .returns _ =>
        (seo_step parse_iso now now_iso os s).last_seo = some now_iso ∧
        (seo_step parse_iso now now_iso os s).last_seo_status = some "ok"
    | .raises e =>
        (seo_step parse_iso now now_iso os s).last_seo = s.last_seo ∧
        (seo_step parse_iso now now_iso os s).last_seo_status =
          some ("error: " ++ e.take 100) := by
  unfold seo_step
  rw [if_pos h]
  cases os with
  | returns a => exact ⟨rfl, rfl⟩
  | raises e => exact ⟨rfl, rfl⟩

/-- Behaviour of the social block when the task is due. -/
theorem social_step_due (parse_iso : String → Option Int) (now : Int)
    (now_iso : String) (osoc : PyResult Unit) (s : SchedState)
    (h : (seconds_since parse_iso now s.last_social).due SOCIAL_INTERVAL = true) :
    match osoc with
    | .returns _ =>
        (social_step parse_iso now now_iso osoc s).last_social = some now_iso ∧
        (social_step parse_iso now now_iso osoc s).last_social_status = some "ok"
    | .raises e =>
        (social_step parse_iso now now_iso osoc s).last_social = s.last_social ∧
        (social_step parse_iso now now_iso osoc s).last_social_status =
          some ("error: " ++ e.take 100) := by
  unfold social_step
  rw [if_pos h]
  cases osoc with
  | returns a => exact ⟨rfl, rfl⟩
  | raises e => exact ⟨rfl, rfl⟩

/-- Behaviour of the heartbeat block when it is due: the timestamp advances
with no condition on any outcome. -/
theorem heartbeat_step_due (parse_iso : String → Option Int) (now : Int)
    (now_iso : String) (cycle : Nat) (s : SchedState)
    (h : (seconds_since parse_iso now s.last_heartbeat).due HEARTBEAT_INTERVAL = true) :
    (heartbeat_step parse_iso now now_iso cycle s).last_heartbeat = some now_iso := by
  unfold heartbeat_step
  rw [if_pos h]

/-- The content timestamp after a tick is decided by the content block. -/
theorem tick_last_content (parse_iso : String → Option Int) (now : Int)
    (now_iso : String) (o : TaskOutcomes) (cycle : Nat) (s : SchedState) :
    (tick parse_iso now now_iso o cycle s).last_content =
      (content_step parse_iso now now_iso o.content s).last_content := by
  unfold tick
  rw [(heartbeat_step_frame parse_iso now now_iso cycle _).1,
    (social_step_frame parse_iso now now_iso o.social _).1,
    (seo_step_frame parse_iso now now_iso o.seo _).1]

/-- The content status after a tick is decided by the content block. -/
theorem tick_last_content_status (parse_iso : String → Option Int) (now : Int)
    (now_iso : String) (o : TaskOutcomes) (cycle : Nat) (s : SchedState) :
    (tick parse_iso now now_iso o cycle s).last_content_status =
      (content_step parse_iso now now_iso o.content s).last_content_status := by
  unfold tick
  rw [(heartbeat_step_frame parse_iso now now_iso cycle _).2.1,
    (social_step_frame parse_iso now now_iso o.social _).2.1,
    (seo_step_frame parse_iso now now_iso o.seo _).2.1]

/-- The SEO timestamp after a tick is decided by the SEO block. -/
theorem tick_last_seo (parse_iso : String → Option Int) (now : Int)
    (now_iso : String) (o : TaskOutcomes) (cycle : Nat) (s : SchedState) :
    (tick parse_iso now now_iso o cycle s).last_seo =
      (seo_step parse_iso now now_iso o.seo
        (content_step parse_iso now now_iso o.content s)).last_seo := by
  unfold tick
  rw [(heartbeat_step_frame parse_iso now now_iso cycle _).2.2.1,
    (social_step_frame parse_iso now now_iso o.social _).2.2.1]

/-- The SEO status after a tick is decided by the SEO block. -/
theorem tick_last_seo_status (parse_iso : String → Option Int) (now : Int)
    (now_iso : String) (o : TaskOutcomes) (cycle : Nat) (s : SchedState) :
    (tick parse_iso now now_iso o cycle s).last_seo_status =
      (seo_step parse_iso now now_iso o.seo
        (content_step parse_iso now now_iso o.content s)).last_seo_status := by
  unfold tick
  rw [(heartbeat_step_frame parse_iso now now_iso cycle _).2.2.2.1,
    (social_step_frame parse_iso now now_iso o.social _).2.2.2.1]

/-- The social timestamp after a tick is decided by the social block. -/
theorem tick_last_social (parse_iso : String → Option Int) (now : Int)
    (now_iso : String) (o : TaskOutcomes) (cycle : Nat) (s : SchedState) :
    (tick parse_iso now now_iso o cycle s).last_social =
      (social_step parse_iso now now_iso o.social
        (seo_step parse_iso now now_iso o.seo
          (content_step parse_iso now now_iso o.content s))).last_social := by
  unfold tick
  rw [(heartbeat_step_frame parse_iso now now_iso cycle _).2.2.2.2.1]

/-- The social status after a tick is decided by the social block. -/
theorem tick_last_social_status (parse_iso : String → Option Int) (now : Int)
    (now_iso : String) (o : TaskOutcomes) (cycle : Nat) (s : SchedState) :
    (tick parse_iso now now_iso o cycle s).last_social_status =
      (social_step parse_iso now now_iso o.social
        (seo_step parse_iso now now_iso o.seo
          (content_step parse_iso now now_iso o.content s))).last_social_status := by
  unfold tick
  rw [(heartbeat_step_frame parse_iso now now_iso cycle _).2.2.2.2.2]

/-- C1: in a scheduler tick, for each of the content, SEO and social tasks
that is due, the last-run timestamp advances to now exactly when the task
body returns without raising, and on an exception only the status string is
set (to the truncated error text) while the timestamp keeps its old value;
the heartbeat timestamp advances whenever the heartbeat is due, independent
of every outcome. -/
theorem C1_tick_advance_iff (parse_iso : String → Option Int) (now : Int)
    (now_iso : String) (o : TaskOutcomes) (cycle : Nat) (s : SchedState) :
    ((seconds_since parse_iso now s.last_content).due CONTENT_INTERVAL = true →
      match o.content with
      | .returns _ =>
          (tick parse_iso now now_iso o cycle s).last_content = some now_iso ∧
          (tick parse_iso now now_iso o cycle s).last_content_status = some "ok"
      | .raises e =>
          (tick parse_iso now now_iso o cycle s).last_content = s.last_content ∧
          (tick parse_iso now now_iso o cycle s).last_content_status =
            some ("error: " ++ e.take 100)) ∧
    ((seconds_since parse_iso now s.last_seo).due SEO_INTERVAL = true →
      match o.seo with
      | .returns _ =>
          (tick parse_iso now now_iso o cycle s).last_seo = some now_iso ∧
          (tick parse_iso now now_iso o cycle s).last_seo_status = some "ok"
      | .raises e =>
          (tick parse_iso now now_iso o cycle s).last_seo = s.last_seo ∧
          (tick parse_iso now now_iso o cycle s).last_seo_status =
            some ("error: " ++ e.take 100)) ∧
    ((seconds_since parse_iso now s.last_social).due SOCIAL_INTERVAL = true →
      match o.social with
      | .returns _ =>
          (tick parse_iso now now_iso o cycle s).last_social = some now_iso ∧
          (tick parse_iso now now_iso o cycle s).last_social_status = some "ok"
      | .raises e =>
          (tick parse_iso now now_iso o cycle s).last_social = s.last_social ∧
          (tick parse_iso now now_iso o cycle s).last_social_status =
            some ("error: " ++ e.take 100)) ∧
    ((seconds_since parse_iso now s.last_heartbeat).due HEARTBEAT_INTERVAL = true →
      (tick parse_iso now now_iso o cycle s).last_heartbeat = some now_iso) := by
  refine ⟨?_, ?_, ?_, ?_⟩
  · intro h
    have hb := content_step_due parse_iso now now_iso o.content s h
    cases hc : o.content with
    | returns a =>
      rw [hc] at hb
      exact ⟨by rw [tick_last_content, hc]; exact hb.1,
        by rw [tick_last_content_status, hc]; exact hb.2⟩
    | raises e =>
      rw [hc] at hb
      exact ⟨by rw [tick_last_content, hc]; exact hb.1,
        by rw [tick_last_content_status, hc]; exact hb.2⟩
  · intro h
    have fc := content_step_frame parse_iso now now_iso o.content s
    have hb := seo_step_due parse_iso now now_iso o.seo
      (content_step parse_iso now now_iso o.content s) (by rw [fc.1]; exact h)
    cases hc : o.seo with
    | returns a =>
      rw [hc] at hb
      exact ⟨by rw [tick_last_seo, hc]; exact hb.1,
        by rw [tick_last_seo_status, hc]; exact hb.2⟩
    | raises e =>
      rw [hc] at hb
      refine ⟨?_, by rw [tick_last_seo_status, hc]; exact hb.2⟩
      rw [tick_last_seo, hc, hb.1]
      exact fc.1
  · intro h
    have fc := content_step_frame parse_iso now now_iso o.content s
    have f1 := seo_step_frame parse_iso now now_iso o.seo
      (content_step parse_iso now now_iso o.content s)
    have hb := social_step_due parse_iso now now_iso o.social
      (seo_step parse_iso now now_iso o.seo
        (content_step parse_iso now now_iso o.content s))
      (by rw [f1.2.2.1, fc.2.2.1]; exact h)
    cases hc : o.social with
    | returns a =>
      rw [hc] at hb
      exact ⟨by rw [tick_last_social, hc]; exact hb.1,
        by rw [tick_last_social_status, hc]; exact hb.2⟩
    | raises e =>
      rw [hc] at hb
      refine ⟨?_, by rw [tick_last_social_status, hc]; exact hb.2⟩
      rw [tick_last_social, hc, hb.1, f1.2.2.1]
      exact fc.2.2.1
  · intro h
    have fc := content_step_frame parse_iso now now_iso o.content s
    have f1 := seo_step_frame parse_iso now now_iso o.seo
      (content_step parse_iso now now_iso o.content s)
    have f2 := social_step_frame parse_iso now now_iso o.social
      (seo_step parse_iso now now_iso o.seo
        (content_step parse_iso now now_iso o.content s))
    exact heartbeat_step_due parse_iso now now_iso cycle _
      (by rw [f2.2.2.2.2, f1.2.2.2.2, fc.2.2.2.2]; exact h)

/-- Witness for C1 at a fresh state (all timestamps missing, so every task is
due) with a succeeding content task and a failing SEO task. -/
theorem C1_tick_advance_iff_witness :
    ((tick (fun _ => none) 0 "2026-10-12T00:00:00+00:00"
        ⟨.returns (), .raises "boom", .returns (), .returns ()⟩ 1
        SchedState.init).last_content = some "2026-10-12T00:00:00+00:00" ∧
      (tick (fun _ => none) 0 "2026-10-12T00:00:00+00:00"
        ⟨.returns (), .raises "boom", .returns (), .returns ()⟩ 1
        SchedState.init).last_content_status = some "ok") ∧
    ((tick (fun _ => none) 0 "2026-10-12T00:00:00+00:00"
        ⟨.returns (), .raises "boom", .returns (), .returns ()⟩ 1
        SchedState.init).last_seo = SchedState.init.last_seo ∧
      (tick (fun _ => none) 0 "2026-10-12T00:00:00+00:00"
        ⟨.returns (), .raises "boom", .returns (), .returns ()⟩ 1
        SchedState.init).last_seo_status = some ("error: " ++ "boom".take 100)) ∧
    (tick (fun _ => none) 0 "2026-10-12T00:00:00+00:00"
        ⟨.returns (), .raises "boom", .returns (), .returns ()⟩ 1
        SchedState.init).last_heartbeat = some "2026-10-12T00:00:00+00:00" :=
  ⟨(C1_tick_advance_iff (fun _ => none) 0 "2026-10-12T00:00:00+00:00"
      ⟨.returns (), .raises "boom", .returns (), .returns ()⟩ 1 SchedState.init).1 rfl,
   (C1_tick_advance_iff (fun _ => none) 0 "2026-10-12T00:00:00+00:00"
      ⟨.returns (), .raises "boom", .returns (), .returns ()⟩ 1 SchedState.init).2.1 rfl,
   (C1_tick_advance_iff (fun _ => none) 0 "2026-10-12T00:00:00+00:00"
      ⟨.returns (), .raises "boom", .returns (), .returns ()⟩ 1 SchedState.init).2.2.2 rfl⟩

/-- C8: a schedule-state timestamp that is missing, empty, or unparsable
makes `seconds_since` return infinity, which is due against every interval,
so the task runs on the first tick of the scheduler. -/
theorem C8_seconds_since_missing (parse_iso : String → Option Int) (now : Int)
    (interval : Int) (iso_str : Option String)
    (h : iso_str = none ∨ iso_str = some "" ∨
      ∃ str, iso_str = some str ∧ parse_iso (str.replace "Z" "+00:00") = none) :
    seconds_since parse_iso now iso_str = Elapsed.inf ∧
    (seconds_since parse_iso now iso_str).due interval = true := by
  have hinf : seconds_since parse_iso now iso_str = Elapsed.inf := by
    rcases h with rfl | rfl | ⟨str, rfl, hp⟩
    · rfl
    · rfl
    · unfold seconds_since
      dsimp only
      by_cases he : str = ""
      · rw [if_pos he]
      · rw [if_neg he, hp]
  exact ⟨hinf, by rw [hinf]; rfl⟩

/-- Witness for C8 at a timestamp string that does not parse. -/
theorem C8_seconds_since_missing_witness :
    seconds_since (fun _ => none) 1000 (some "not-a-date") = Elapsed.inf ∧
    (seconds_since (fun _ => none) 1000 (some "not-a-date")).due CONTENT_INTERVAL = true :=
  C8_seconds_since_missing (fun _ => none) 1000 CONTENT_INTERVAL (some "not-a-date")
    (Or.inr (Or.inr ⟨"not-a-date", rfl, rfl⟩))
